import Mathlib

/-!
Verification of the `VideoCallService` session state machine (a mediasoup /
protoo video-call client).  The definitions below are a shallow embedding of
the service class: its mutable fields become a record `SvcState`, each method
becomes a function from state to state (with an explicit environment for the
outcomes of external asynchronous calls), and the signaling requests a method
issues are recorded in an explicit `requests` log so that claims about "which
requests were sent" are statable.
-/

namespace VideoCall

/-- Media kinds, the TS union `'audio' | 'video'`. -/
inductive MediaKind
  | audio
  | video
  deriving DecidableEq, Repr

/-- The `Participant` interface (the `device` object is flattened into its
two fields; the optional `videoElement` is rendering-only and omitted). -/
structure Participant where
  id : String
  displayName : String
  deviceName : String
  deviceVersion : String
  isLocal : Bool
  audioEnabled : Bool
  videoEnabled : Bool
  deriving DecidableEq, Repr

/-- The `MediaSoupState` interface published through `stateSubject`. -/
structure MediaSoupState where
  isConnected : Bool
  isProducing : Bool
  participants : List Participant
  error : Option String
  activeSpeaker : Option (String × Nat)
  deriving DecidableEq, Repr

/-- A mediasoup producer as far as the service observes it: its
server-assigned id, its `paused` flag and its `closed` flag. -/
structure Producer where
  id : String
  paused : Bool
  closed : Bool
  deriving DecidableEq, Repr

/-- A locally materialized consumer; `peerId` is the owning peer attached by
the service (`(consumer as any).peerId = consumerInfo.peerId`). -/
structure ConsumerObj where
  id : String
  kind : MediaKind
  peerId : String
  paused : Bool
  closed : Bool
  deriving DecidableEq, Repr

/-- The `ConsumerInfo` payload of a `newConsumer` notification.  The uninterpreted
`rtpParameters` / `appData` payloads are carried as strings; the reserved
word `type` becomes `ctype`. -/
structure ConsumerInfo where
  peerId : String
  producerId : String
  id : String
  kind : MediaKind
  rtpParameters : String
  ctype : String
  appData : String
  producerPaused : Bool
  deriving DecidableEq, Repr

/-- Payload of a `newPeer` notification (`{id, displayName, device}`). -/
structure NewPeerData where
  id : String
  displayName : String
  deviceName : String
  deviceVersion : String
  deriving DecidableEq, Repr

/-- A signaling request issued through `this.peer.request`, recorded as
(method, principal identifier argument). -/
abbrev SigRequest := String × String

/-- The mutable fields of `VideoCallService` that the verified methods read
or write.  `participantsSnap` is the value held by `participantsSubject`,
`stateSnap` the value held by `stateSubject`, `localStream` whether
`localStreamSubject` currently holds a stream, and `participantsMap` the
private `participants` map.  Booleans `sendTransportExists` /
`recvTransportExists` / `peerExists` model the truthiness of the
corresponding (possibly unassigned) fields. -/
structure SvcState where
  videoProducer : Option Producer
  audioProducer : Option Producer
  consumers : List (String × ConsumerObj)
  participantsMap : List (String × Participant)
  currentPeerId : Option String
  localPeerDisplayName : Option String
  sendTransportExists : Bool
  recvTransportExists : Bool
  peerExists : Bool
  stateSnap : MediaSoupState
  participantsSnap : List Participant
  localStream : Bool
  requests : List SigRequest
  deriving DecidableEq, Repr

/-- JS `Map.prototype.set`: replace the value at an existing key in place,
otherwise append the new binding. -/
def mapSet (k : String) (v : ConsumerObj) :
    List (String × ConsumerObj) → List (String × ConsumerObj)
  | [] => [(k, v)]
  | (k', v') :: rest =>
      if k' = k then (k, v) :: rest else (k', v') :: mapSet k v rest

/-- `addParticipant`: append the participant to `participantsSubject`'s list
unless one with the same id is already present (`findIndex === -1`). -/
def addParticipant (ps : List Participant) (p : Participant) : List Participant :=
  if ps.any (fun q => q.id == p.id) then ps else ps ++ [p]

/-- `removeParticipant`: filter out every participant with the given id. -/
def removeParticipant (ps : List Participant) (peerId : String) : List Participant :=
  ps.filter (fun p => p.id != peerId)

/-- `handleNewPeer`: insert a non-local participant with both media flags
initially false. -/
def handleNewPeer (st : SvcState) (d : NewPeerData) : SvcState :=
  { st with
    participantsSnap := addParticipant st.participantsSnap
      { id := d.id, displayName := d.displayName, deviceName := d.deviceName,
        deviceVersion := d.deviceVersion, isLocal := false,
        audioEnabled := false, videoEnabled := false } }

/-- `handlePeerClosed`: remove the participant carried by the notification. -/
def handlePeerClosed (st : SvcState) (peerId : String) : SvcState :=
  { st with participantsSnap := removeParticipant st.participantsSnap peerId }

/-- `updateParticipantMedia`: map over the published participant list and
set the matching participant's audio/video enabled flag. -/
def updateParticipantMedia (st : SvcState) (peerId : String) (kind : MediaKind)
    (enabled : Bool) : SvcState :=
  { st with
    participantsSnap := st.participantsSnap.map (fun p =>
      if p.id == peerId then
        match kind with
        | .audio => { p with audioEnabled := enabled }
        | .video => { p with videoEnabled := enabled }
      else p) }

/-- Derived audio flag of the local participant:
`!!this.audioProducer && !this.audioProducer.paused`. -/
def audioOn (st : SvcState) : Bool :=
  match st.audioProducer with
  | some p => !p.paused
  | none => false

/-- Derived video flag of the local participant. -/
def videoOn (st : SvcState) : Bool :=
  match st.videoProducer with
  | some p => !p.paused
  | none => false

/-- The synthetic local participant added by `updateParticipants`. -/
def localParticipant (a v : Bool) : Participant :=
  { id := "local", displayName := "You", deviceName := "Local",
    deviceVersion := "1.0.0", isLocal := true,
    audioEnabled := a, videoEnabled := v }

/-- In-place update of the first participant with `isLocal` set (the TS code
mutates the object returned by `find`). -/
def setFirstLocal (a v : Bool) : List Participant → List Participant
  | [] => []
  | p :: rest =>
      if p.isLocal then { p with audioEnabled := a, videoEnabled := v } :: rest
      else p :: setFirstLocal a v rest

/-- `updateParticipants`: refresh (or insert) the local participant's derived
flags, then republish the list through `stateSubject` as well. -/
def updateParticipants (st : SvcState) : SvcState :=
  let a := audioOn st
  let v := videoOn st
  let ps :=
    if st.participantsSnap.any (fun p => p.isLocal) then
      setFirstLocal a v st.participantsSnap
    else
      addParticipant st.participantsSnap (localParticipant a v)
  { st with participantsSnap := ps,
            stateSnap := { st.stateSnap with participants := ps } }

/-- Character-list prefix test. -/
def isPrefixL : List Char → List Char → Bool
  | [], _ => true
  | _ :: _, [] => false
  | a :: as, b :: bs => a == b && isPrefixL as bs

/-- Does `sub` occur starting at any position of the character list? -/
def includesAux (sub : List Char) : List Char → Bool
  | [] => isPrefixL sub []
  | c :: cs => isPrefixL sub (c :: cs) || includesAux sub cs

/-- JS `String.prototype.includes`: substring containment. -/
def strIncludes (s sub : String) : Bool :=
  includesAux sub.data s.data

/-- `isOwnConsumer`: false when either peer identifier is missing/empty
(JS falsiness of `undefined` and `""`); otherwise a direct id match OR a
display-name substring "backup check". -/
def isOwnConsumer (st : SvcState) (consumerPeerId : String) : Bool :=
  match st.currentPeerId with
  | none => false
  | some cur =>
      if cur = "" || consumerPeerId = "" then false
      else
        let directMatch := cur == consumerPeerId
        let nameMatch :=
          match st.localPeerDisplayName with
          | none => false
          | some dn => if dn = "" then false else strIncludes consumerPeerId dn
        directMatch || nameMatch

/-- Outcomes of the two external asynchronous calls made while handling a
`newConsumer` notification: `recvTransport.consume` and the `resumeConsumer`
signaling request.  `some msg` means the call throws/rejects with `msg`. -/
structure ConsumeEnv where
  consumeError : Option String
  resumeError : Option String
  deriving DecidableEq, Repr

/-- `consume`: throw if the receive transport is unavailable; instantiate the
consumer from the notification's parameters; insert it into the consumer map
keyed by its id; then issue `resumeConsumer` (the map insertion precedes the
request, so a rejected request leaves the entry in the map).  Returns the
updated state and either the consumer or the thrown error. -/
def consume (env : ConsumeEnv) (st : SvcState) (info : ConsumerInfo) :
    SvcState × Except String ConsumerObj :=
  if !st.recvTransportExists then
    (st, .error "Receive transport not available")
  else
    match env.consumeError with
    | some e => (st, .error e)
    | none =>
        let c : ConsumerObj :=
          { id := info.id, kind := info.kind, peerId := info.peerId,
            paused := false, closed := false }
        let st' := { st with
          consumers := mapSet c.id c st.consumers,
          requests := st.requests ++ [("resumeConsumer", c.id)] }
        match env.resumeError with
        | some e => (st', .error e)
        | none => (st', .ok c)

/-- `handleNewConsumer`: the self-consumption guard is commented out in the
source ("TEMPORARILY DISABLE OWN CONSUMER CHECK FOR DEBUGGING"), so the
notification is processed unconditionally; on success the owning peer's flag
is set and the participant lists republished; any error is caught and logged
(the function always returns a state, never propagates). -/
def handleNewConsumer (env : ConsumeEnv) (st : SvcState) (info : ConsumerInfo) :
    SvcState :=
  match consume env st info with
  | (st', .error _) => st'
  | (st', .ok _) =>
      updateParticipants (updateParticipantMedia st' info.peerId info.kind true)

/-- The producer field selected by a kind
(`kind === 'video' ? this.videoProducer : this.audioProducer`). -/
def producerFor (st : SvcState) (k : MediaKind) : Option Producer :=
  match k with
  | .video => st.videoProducer
  | .audio => st.audioProducer

/-- `pauseProducer(kind)`: if the selected producer exists and is not paused,
pause it locally and issue a `pauseProducer` request; otherwise do nothing. -/
def pauseProducer (st : SvcState) (k : MediaKind) : SvcState :=
  match k with
  | .video =>
      match st.videoProducer with
      | some p =>
          if !p.paused then
            { st with videoProducer := some { p with paused := true },
                      requests := st.requests ++ [("pauseProducer", p.id)] }
          else st
      | none => st
  | .audio =>
      match st.audioProducer with
      | some p =>
          if !p.paused then
            { st with audioProducer := some { p with paused := true },
                      requests := st.requests ++ [("pauseProducer", p.id)] }
          else st
      | none => st

/-- `resumeProducer(kind)`: if the selected producer exists and is paused,
resume it locally and issue a `resumeProducer` request; otherwise nothing. -/
def resumeProducer (st : SvcState) (k : MediaKind) : SvcState :=
  match k with
  | .video =>
      match st.videoProducer with
      | some p =>
          if p.paused then
            { st with videoProducer := some { p with paused := false },
                      requests := st.requests ++ [("resumeProducer", p.id)] }
          else st
      | none => st
  | .audio =>
      match st.audioProducer with
      | some p =>
          if p.paused then
            { st with audioProducer := some { p with paused := false },
                      requests := st.requests ++ [("resumeProducer", p.id)] }
          else st
      | none => st

/-- `isVideoEnabled()`: the video producer exists and is not paused. -/
def isVideoEnabled (st : SvcState) : Bool :=
  match st.videoProducer with
  | some p => !p.paused
  | none => false

/-- `isAudioEnabled()`: the audio producer exists and is not paused. -/
def isAudioEnabled (st : SvcState) : Bool :=
  match st.audioProducer with
  | some p => !p.paused
  | none => false

/-- The enablement query corresponding to a kind. -/
def enabledFor (st : SvcState) (k : MediaKind) : Bool :=
  match k with
  | .video => isVideoEnabled st
  | .audio => isAudioEnabled st

/-- `this.maxRetries`. -/
def maxRetries : Nat := 3

/-- The backoff delay applied after a failed attempt:
`Math.min(1000 * Math.pow(2, attempt - 1), 5000)` milliseconds. -/
def backoffDelay (attempt : Nat) : Nat :=
  min (1000 * 2 ^ (attempt - 1)) 5000

/-- The aggregated error message built on exhaustion:
`Connection failed after ${maxRetries} attempts: ${lastMessage}`. -/
def aggregatedError (lastMessage : String) : String :=
  "Connection failed after " ++ toString maxRetries ++ " attempts: " ++ lastMessage

instance : DecidableEq (Except String Unit) := fun a b =>
  match a, b with
  | .ok (), .ok () => isTrue rfl
  | .error e, .error f =>
      if h : e = f then isTrue (by rw [h]) else isFalse (by simp [h])
  | .ok _, .error _ => isFalse (by simp)
  | .error _, .ok _ => isFalse (by simp)

/-- Observable outcome of one `connectWithRetry` run: how many `connect`
calls were made, which delays were awaited between attempts, and the final
result (Unit on success, the thrown message on failure). -/
structure RetryTrace where
  attempts : Nat
  delays : List Nat
  result : Except String Unit
  deriving DecidableEq, Repr

/-- The body of `connectWithRetry`'s for-loop from a given attempt number;
`connect` maps each attempt number to that attempt's outcome.  The fuel is
the number of loop iterations left (`maxRetries - attempt + 1`); if the loop
ends without returning or throwing the promise resolves with no value. -/
def retryFrom (connect : Nat → Except String Unit) :
    Nat → Nat → List Nat → RetryTrace
  | 0, attempt, ds => ⟨attempt - 1, ds, .ok ()⟩
  | fuel + 1, attempt, ds =>
      match connect attempt with
      | .ok () => ⟨attempt, ds, .ok ()⟩
      | .error msg =>
          if attempt = maxRetries then
            ⟨attempt, ds, .error (aggregatedError msg)⟩
          else
            retryFrom connect fuel (attempt + 1) (ds ++ [backoffDelay attempt])

/-- `connectWithRetry`: run the loop for attempts `1 .. maxRetries`. -/
def connectWithRetry (connect : Nat → Except String Unit) : RetryTrace :=
  retryFrom connect maxRetries 1 []

/-- Events that can reach the promise executor inside `waitForConnection`:
the 10 s timer firing, the peer's `open` event, or its `failed` event
carrying an error message (the empty string standing for a missing one). -/
inductive WFCEvent
  | timeout
  | opened
  | failed (msg : String)
  deriving DecidableEq, Repr

/-- Actions the executor's handlers actually perform (the vocabulary also
names `closePeer` so that "the connection is torn down" is statable; no
handler in the source performs it). -/
inductive WFCAct
  | clearTimer
  | resolveOk
  | rejectErr (msg : String)
  | closePeer
  deriving DecidableEq, Repr

/-- How the `waitForConnection` promise settled. -/
inductive WFCOutcome
  | pending
  | resolvedOk
  | rejected (msg : String)
  deriving DecidableEq, Repr

/-- State of the promise executor: the `resolved` flag and the settled
outcome, plus the trace of actions performed. -/
structure WFCState where
  resolved : Bool
  outcome : WFCOutcome
  trace : List WFCAct
  deriving DecidableEq, Repr

/-- Timeout passed to `setTimeout` in `waitForConnection`, in ms. -/
def connectionTimeoutMs : Nat := 10000

/-- The message used when the timer fires. -/
def timeoutMessage : String := "Connection timeout after 10 seconds"

/-- The message used by the `failed` handler
(`error?.message || 'Unknown error'`). -/
def failedMessage (m : String) : String :=
  "Connection failed: " ++ (if m = "" then "Unknown error" else m)

/-- One event hitting the executor: every handler first checks `resolved`
and does nothing if the promise already settled; otherwise it settles it. -/
def wfcStep (s : WFCState) (e : WFCEvent) : WFCState :=
  if s.resolved then s
  else
    match e with
    | .timeout =>
        { resolved := true, outcome := .rejected timeoutMessage,
          trace := s.trace ++ [.rejectErr timeoutMessage] }
    | .opened =>
        { resolved := true, outcome := .resolvedOk,
          trace := s.trace ++ [.clearTimer, .resolveOk] }
    | .failed m =>
        { resolved := true, outcome := .rejected (failedMessage m),
          trace := s.trace ++ [.clearTimer, .rejectErr (failedMessage m)] }

/-- `waitForConnection` under a given arrival order of events. -/
def waitForConnection (events : List WFCEvent) : WFCState :=
  events.foldl wfcStep ⟨false, .pending, []⟩

/-- The teardown steps `disconnect` performs (each a call that can throw),
plus the trailing state reset. -/
inductive Act
  | closeVideoProducer
  | closeAudioProducer
  | closeConsumer (id : String)
  | closeSendTransport
  | closeRecvTransport
  | closePeer
  | resetState
  deriving DecidableEq, Repr

/-- One guard-free step inside `disconnect`'s single try block: if the
environment makes this call throw, control jumps to the catch with the state
as mutated so far (`Except.error`); otherwise the step's effect is applied. -/
def dstep (env : Act → Bool) (a : Act) (f : SvcState → SvcState) :
    SvcState × List Act → Except (SvcState × List Act) (SvcState × List Act)
  | (st, tr) =>
      if env a then .error (st, tr ++ [a]) else .ok (f st, tr ++ [a])

/-- Mark the consumer at a key as closed (the `consumer.close()` inside the
`forEach`; the map entry itself is only removed by the later `clear()`). -/
def markConsumerClosed (k : String) :
    List (String × ConsumerObj) → List (String × ConsumerObj)
  | [] => []
  | (k', c) :: rest =>
      if k' == k then (k', { c with closed := true }) :: rest
      else (k', c) :: markConsumerClosed k rest

/-- `this.consumers.forEach((consumer) => consumer.close())`: close each
consumer in map order; a throwing close aborts the iteration. -/
def closeConsumersFrom (env : Act → Bool) :
    List String → SvcState × List Act →
    Except (SvcState × List Act) (SvcState × List Act)
  | [], s => .ok s
  | k :: ks, (st, tr) =>
      if env (Act.closeConsumer k) then .error (st, tr ++ [Act.closeConsumer k])
      else closeConsumersFrom env ks
        ({ st with consumers := markConsumerClosed k st.consumers },
         tr ++ [Act.closeConsumer k])

/-- The trailing reset: `updateState({isConnected:false, isProducing:false,
participants:[], error:null})` (a field-wise merge, so `activeSpeaker` is kept),
clear the stream/participants subjects and the private map, and clear both
peer-identity fields. -/
def resetPublishedState (st : SvcState) : SvcState :=
  { st with
    stateSnap := { isConnected := false, isProducing := false,
                   participants := [], error := none,
                   activeSpeaker := st.stateSnap.activeSpeaker },
    localStream := false,
    participantsSnap := [],
    participantsMap := [],
    currentPeerId := none,
    localPeerDisplayName := none }

/-- `disconnect` as the chain of steps inside one `try` block. -/
def disconnectE (env : Act → Bool) (st : SvcState) :
    Except (SvcState × List Act) (SvcState × List Act) := do
  let s0 := (st, ([] : List Act))
  let s1 ←
    match st.videoProducer with
    | some p =>
        dstep env .closeVideoProducer
          (fun t => { t with videoProducer := some { p with closed := true } }) s0
    | none => pure s0
  let s2 ←
    match st.audioProducer with
    | some p =>
        dstep env .closeAudioProducer
          (fun t => { t with audioProducer := some { p with closed := true } }) s1
    | none => pure s1
  let s3 ← closeConsumersFrom env (st.consumers.map Prod.fst) s2
  let s3c := ({ s3.1 with consumers := [] }, s3.2)
  let s4 ←
    if st.sendTransportExists then
      dstep env .closeSendTransport (fun t => t) s3c
    else pure s3c
  let s5 ←
    if st.recvTransportExists then
      dstep env .closeRecvTransport (fun t => t) s4
    else pure s4
  let s6 ←
    if st.peerExists then
      dstep env .closePeer (fun t => t) s5
    else pure s5
  dstep env .resetState resetPublishedState s6

/-- `disconnect`: the whole chain sits in a single `try { ... } catch`, so a
thrown step swallows the error and leaves the remaining steps unexecuted. -/
def disconnectRun (env : Act → Bool) (st : SvcState) : SvcState × List Act :=
  match disconnectE env st with
  | .ok r => r
  | .error r => r

/-- Mark the consumers at all given keys as closed, in iteration order (the
net effect of a completed `forEach` close loop). -/
def multiMark (ks : List String) (cs : List (String × ConsumerObj)) :
    List (String × ConsumerObj) :=
  ks.foldl (fun acc k => markConsumerClosed k acc) cs

/-- A connected session snapshot used as a concrete test fixture. -/
def msLive : MediaSoupState :=
  { isConnected := true, isProducing := false, participants := [],
    error := none, activeSpeaker := none }

/-- A remote participant fixture with identifier `peerA`. -/
def remoteA : Participant :=
  { id := "peerA", displayName := "Alice", deviceName := "d",
    deviceVersion := "1", isLocal := false,
    audioEnabled := false, videoEnabled := false }

/-- A joined-session fixture: the server confirmed local peer id `peerA`,
display name `Alice`, both transports and the signaling peer are up, and the
remote participant list has been populated. -/
def stOwn : SvcState :=
  { videoProducer := none, audioProducer := none, consumers := [],
    participantsMap := [], currentPeerId := some "peerA",
    localPeerDisplayName := some "Alice", sendTransportExists := true,
    recvTransportExists := true, peerExists := true,
    stateSnap := msLive, participantsSnap := [remoteA],
    localStream := true, requests := [] }

/-- A `newConsumer` notification whose `peerId` equals the local session's
confirmed peer id `peerA` (a self-consumption notification). -/
def infoOwn : ConsumerInfo :=
  { peerId := "peerA", producerId := "prod1", id := "c1", kind := .audio,
    rtpParameters := "rtp", ctype := "simple", appData := "app",
    producerPaused := false }

/-- A `newConsumer` notification from a different remote peer `peerB`. -/
def infoB : ConsumerInfo :=
  { peerId := "peerB", producerId := "prod2", id := "c2", kind := .video,
    rtpParameters := "rtp", ctype := "simple", appData := "app",
    producerPaused := false }

/-- A session fixture whose server-confirmed id is `srv_42` while the local
display name is `Bob`. -/
def stName : SvcState :=
  { stOwn with currentPeerId := some "srv_42",
               localPeerDisplayName := some "Bob" }

/-- The session fixture with a live (unpaused) video producer, for teardown
scenarios. -/
def stTear : SvcState :=
  { stOwn with videoProducer := some { id := "vp", paused := false, closed := false } }

/-- A teardown environment in which only the video producer's `close()`
throws. -/
def envVideoThrows : Act → Bool := fun a => decide (a = Act.closeVideoProducer)

/-- A `newPeer` notification payload for remote peer `peerB`. -/
def dB : NewPeerData :=
  { id := "peerB", displayName := "Bob", deviceName := "d", deviceVersion := "1" }

/-- The session fixture with a live (unpaused) audio producer. -/
def stProd : SvcState :=
  { stOwn with audioProducer := some { id := "ap", paused := false, closed := false } }

/-- The session fixture with an already-paused audio producer. -/
def stProdPaused : SvcState :=
  { stOwn with audioProducer := some { id := "ap2", paused := true, closed := false } }

/-- Inserting a participant whose id is already present is a no-op on the
list. -/
theorem addParticipant_dup (ps : List Participant) (p : Participant)
    (h : ps.any (fun q => q.id == p.id) = true) :
    addParticipant ps p = ps := by
  simp [addParticipant, h]

/-- A `newPeer` notification for an id already in the participant list
leaves the whole service state unchanged. -/
theorem handleNewPeer_noop (st : SvcState) (d : NewPeerData)
    (h : st.participantsSnap.any (fun q => q.id == d.id) = true) :
    handleNewPeer st d = st := by
  show { st with participantsSnap := addParticipant st.participantsSnap _ } = st
  rw [addParticipant_dup _ _ h]

/-- Once the `waitForConnection` promise has settled, later events are
ignored. -/
theorem wfc_resolved_foldl (s : WFCState) (h : s.resolved = true) :
    ∀ es : List WFCEvent, es.foldl wfcStep s = s := by
  intro es
  induction es with
  | nil => rfl
  | cons e es ih =>
      have hstep : wfcStep s e = s := by simp [wfcStep, h]
      simp [List.foldl, hstep, ih]

/-- When no `consumer.close()` throws, the `forEach` loop closes every
consumer in map order and records one action per consumer. -/
theorem closeConsumersFrom_ok (env : Act → Bool) (h : ∀ a, env a = false) :
    ∀ (ks : List String) (st : SvcState) (tr : List Act),
    closeConsumersFrom env ks (st, tr) =
      .ok ({ st with consumers := multiMark ks st.consumers },
           tr ++ ks.map Act.closeConsumer) := by
  intro ks
  induction ks with
  | nil => intro st tr; simp [closeConsumersFrom, multiMark]
  | cons k ks ih =>
      intro st tr
      simp [closeConsumersFrom, h, ih, multiMark, List.foldl]

/-- C1: the self-consumption guard is disabled in `handleNewConsumer` (the
`isOwnConsumer` check is commented out), so a `newConsumer` notification
whose peer identifier equals the confirmed local peer id IS surfaced: the
consumer map gains an entry for it and the matching participant's audio flag
is set — contrary to the claimed guard, even though `isOwnConsumer` itself
classifies the notification as self-originated. -/
theorem newConsumer_self_surfaced :
    isOwnConsumer stOwn infoOwn.peerId = true ∧
    stOwn.consumers = [] ∧
    (handleNewConsumer ⟨none, none⟩ stOwn infoOwn).consumers =
      [("c1", { id := "c1", kind := .audio, peerId := "peerA",
                paused := false, closed := false })] ∧
    (handleNewConsumer ⟨none, none⟩ stOwn infoOwn).participantsSnap.any
      (fun p => p.id == "peerA" && p.audioEnabled) = true := by
  refine ⟨by decide, rfl, by decide, by decide⟩

/-- C2: when `connect` fails on every attempt, `connectWithRetry` makes
exactly 3 attempts, waits `backoffDelay 1 = 1000` ms and
`backoffDelay 2 = 2000` ms between them (the `min (1000 * 2 ^ (attempt - 1))
5000` formula), and rejects with one aggregated error naming the attempt
count and the last failure's message. -/
theorem retry_always_fails (connect : Nat → Except String Unit)
    (msgs : Nat → String) (h : ∀ i, connect i = .error (msgs i)) :
    connectWithRetry connect =
      ⟨3, [backoffDelay 1, backoffDelay 2],
        .error ("Connection failed after 3 attempts: " ++ msgs 3)⟩ ∧
    [backoffDelay 1, backoffDelay 2] = [1000, 2000] := by
  constructor
  · simp [connectWithRetry, retryFrom, h 1, h 2, h 3, maxRetries, aggregatedError]
    rfl
  · simp [backoffDelay]

/-- Witness for C2 at a concrete always-failing `connect`. -/
theorem retry_always_fails_witness :
    connectWithRetry (fun i => .error ("boom" ++ toString i)) =
      ⟨3, [backoffDelay 1, backoffDelay 2],
        .error ("Connection failed after 3 attempts: " ++ ("boom" ++ toString 3))⟩ ∧
    [backoffDelay 1, backoffDelay 2] = [1000, 2000] :=
  retry_always_fails (fun i => .error ("boom" ++ toString i))
    (fun i => "boom" ++ toString i) (fun _ => rfl)

/-- C3 counterexample: a `newConsumer` notification whose follow-up
`resumeConsumer` request rejects does NOT leave the consumer map unchanged:
the entry was inserted before the request and remains after the error is
caught (the participant flags, however, stay untouched). -/
theorem newConsumer_error_leaves_entry :
    stOwn.consumers = [] ∧
    (handleNewConsumer ⟨none, some "resume rejected"⟩ stOwn infoB).consumers =
      [("c2", { id := "c2", kind := .video, peerId := "peerB",
                paused := false, closed := false })] ∧
    (handleNewConsumer ⟨none, some "resume rejected"⟩ stOwn infoB).participantsSnap =
      stOwn.participantsSnap := by
  refine ⟨rfl, by decide, rfl⟩

/-- C3 as amended: a failed `newConsumer` is caught and never propagates
(the handler always returns a state); no participant enabled flag is set and
the published snapshots are untouched.  If the receive-transport `consume`
step itself throws the whole state is unchanged, while if the
`resumeConsumer` request rejects the consumer entry inserted just before the
request remains in the map. -/
theorem newConsumer_error_caught (st : SvcState) (info : ConsumerInfo)
    (envA envB : ConsumeEnv) (eA eB : String)
    (hA : envA.consumeError = some eA)
    (hB1 : envB.consumeError = none) (hB2 : envB.resumeError = some eB) :
    handleNewConsumer envA st info = st ∧
    (handleNewConsumer envB st info).participantsSnap = st.participantsSnap ∧
    (handleNewConsumer envB st info).stateSnap = st.stateSnap ∧
    (handleNewConsumer envB st info).consumers =
      (if st.recvTransportExists then
        mapSet info.id
          { id := info.id, kind := info.kind, peerId := info.peerId,
            paused := false, closed := false } st.consumers
       else st.consumers) := by
  cases hr : st.recvTransportExists <;>
    simp [handleNewConsumer, consume, hA, hB1, hB2, hr]

/-- Witness for the amended C3 at concrete failing environments. -/
theorem newConsumer_error_caught_witness :
    handleNewConsumer ⟨some "boom", none⟩ stOwn infoB = stOwn ∧
    (handleNewConsumer ⟨none, some "deny"⟩ stOwn infoB).participantsSnap =
      stOwn.participantsSnap ∧
    (handleNewConsumer ⟨none, some "deny"⟩ stOwn infoB).stateSnap = stOwn.stateSnap ∧
    (handleNewConsumer ⟨none, some "deny"⟩ stOwn infoB).consumers =
      (if stOwn.recvTransportExists then
        mapSet infoB.id
          { id := infoB.id, kind := infoB.kind, peerId := infoB.peerId,
            paused := false, closed := false } stOwn.consumers
       else stOwn.consumers) :=
  newConsumer_error_caught stOwn infoB ⟨some "boom", none⟩ ⟨none, some "deny"⟩
    "boom" "deny" rfl rfl rfl

/-- C4: `isOwnConsumer` does NOT decide ownership solely by equality with the
server-confirmed peer id: with confirmed id `srv_42` and display name `Bob`,
the distinct peer id `Bob_173_xy` is classified as own through the
display-name substring backup check. -/
theorem own_guard_display_name_match :
    isOwnConsumer stName "Bob_173_xy" = true ∧
    "Bob_173_xy" ≠ "srv_42" ∧
    stName.currentPeerId = some "srv_42" := by
  refine ⟨by decide, by decide, rfl⟩

/-- C5 counterexample: the teardown steps of `disconnect` are not
independently guarded — when the very first step (closing the video
producer) throws, no later step runs: the action trace stops there, the
connected flag, the peer id and the participant list are all left as they
were (the state reset never executes). -/
theorem teardown_single_guard_aborts :
    (disconnectRun envVideoThrows stTear).2 = [Act.closeVideoProducer] ∧
    (disconnectRun envVideoThrows stTear).1.currentPeerId = some "peerA" ∧
    (disconnectRun envVideoThrows stTear).1.stateSnap.isConnected = true ∧
    (disconnectRun envVideoThrows stTear).1.participantsSnap = [remoteA] := by
  refine ⟨by decide, rfl, rfl, rfl⟩

/-- C5 as amended: when no step throws, `disconnect` closes the producers,
then every consumer, then both transports, then the signaling peer, in that
order, and finally resets the published snapshots (connection/producing
flags, participant list, error, local stream, both peer-identity fields);
the whole chain sits in one guard, so a throwing step aborts the remaining
steps but never propagates the error. -/
theorem teardown_order_and_reset (st : SvcState) (env : Act → Bool)
    (h : ∀ a, env a = false) :
    disconnectRun env st =
      (resetPublishedState
        { st with
          videoProducer := st.videoProducer.map (fun p => { p with closed := true }),
          audioProducer := st.audioProducer.map (fun p => { p with closed := true }),
          consumers := [] },
       (if st.videoProducer.isSome then [Act.closeVideoProducer] else []) ++
       ((if st.audioProducer.isSome then [Act.closeAudioProducer] else []) ++
       (st.consumers.map (fun kc => Act.closeConsumer kc.1) ++
       ((if st.sendTransportExists then [Act.closeSendTransport] else []) ++
       ((if st.recvTransportExists then [Act.closeRecvTransport] else []) ++
       ((if st.peerExists then [Act.closePeer] else []) ++
       [Act.resetState])))))) := by
  cases hv : st.videoProducer <;> cases ha : st.audioProducer <;>
    cases hs : st.sendTransportExists <;> cases hr : st.recvTransportExists <;>
      cases hp : st.peerExists <;>
        simp [disconnectRun, disconnectE, dstep, h, closeConsumersFrom_ok env h,
          hv, ha, hs, hr, hp, Bind.bind, Except.bind, Pure.pure, Except.pure,
          Function.comp]

/-- Witness for the amended C5 at a concrete state and a never-throwing
environment. -/
theorem teardown_order_and_reset_witness :
    disconnectRun (fun _ => false) stTear =
      (resetPublishedState
        { stTear with
          videoProducer := stTear.videoProducer.map (fun p => { p with closed := true }),
          audioProducer := stTear.audioProducer.map (fun p => { p with closed := true }),
          consumers := [] },
       (if stTear.videoProducer.isSome then [Act.closeVideoProducer] else []) ++
       ((if stTear.audioProducer.isSome then [Act.closeAudioProducer] else []) ++
       (stTear.consumers.map (fun kc => Act.closeConsumer kc.1) ++
       ((if stTear.sendTransportExists then [Act.closeSendTransport] else []) ++
       ((if stTear.recvTransportExists then [Act.closeRecvTransport] else []) ++
       ((if stTear.peerExists then [Act.closePeer] else []) ++
       [Act.resetState])))))) :=
  teardown_order_and_reset stTear (fun _ => false) (fun _ => rfl)

/-- C6: starting from a state without participant `d.id`, one `newPeer`
notification leaves exactly one entry with that id, and any number of
further duplicate `newPeer` notifications are no-ops. -/
theorem newPeer_idempotent (st : SvcState) (d : NewPeerData) (k : Nat)
    (h : st.participantsSnap.countP (fun q => q.id == d.id) = 0) :
    (handleNewPeer st d).participantsSnap.countP (fun q => q.id == d.id) = 1 ∧
    (fun s => handleNewPeer s d)^[k] (handleNewPeer st d) = handleNewPeer st d := by
  have hany : st.participantsSnap.any (fun q => q.id == d.id) = false := by
    rw [List.any_eq_false]
    intro q hq
    have := List.countP_eq_zero.mp h q hq
    simpa using this
  constructor
  · simp [handleNewPeer, addParticipant, hany, List.countP_append, h]
  · apply Function.iterate_fixed
    apply handleNewPeer_noop
    simp [handleNewPeer, addParticipant, hany]

/-- Witness for C6: insert `peerB` into the fixture once, then twice more. -/
theorem newPeer_idempotent_witness :
    (handleNewPeer stOwn dB).participantsSnap.countP
      (fun q => q.id == dB.id) = 1 ∧
    (fun s => handleNewPeer s dB)^[2] (handleNewPeer stOwn dB) =
      handleNewPeer stOwn dB :=
  newPeer_idempotent stOwn dB 2 (by decide)

/-- C7: with a live unpaused producer, `pauseProducer` issues exactly one
`pauseProducer` request and a second call is a complete no-op; pause then
resume restores the enablement query to its prior value; both operations are
no-ops when the producer is absent or already in the target state. -/
theorem pause_resume_producer (st stA stP : SvcState) (k : MediaKind)
    (p q : Producer)
    (h1 : producerFor st k = some p) (h2 : p.paused = false)
    (h3 : producerFor stA k = none)
    (h4 : producerFor stP k = some q) (h5 : q.paused = true) :
    (pauseProducer st k).requests = st.requests ++ [("pauseProducer", p.id)] ∧
    pauseProducer (pauseProducer st k) k = pauseProducer st k ∧
    enabledFor (pauseProducer st k) k = false ∧
    enabledFor (resumeProducer (pauseProducer st k) k) k = enabledFor st k ∧
    pauseProducer stA k = stA ∧
    resumeProducer stA k = stA ∧
    pauseProducer stP k = stP ∧
    resumeProducer st k = st := by
  cases k <;>
    simp_all [producerFor, pauseProducer, resumeProducer, enabledFor,
      isVideoEnabled, isAudioEnabled]

/-- Witness for C7 on the audio producer fixtures. -/
theorem pause_resume_producer_witness :
    (pauseProducer stProd .audio).requests =
      stProd.requests ++ [("pauseProducer", "ap")] ∧
    pauseProducer (pauseProducer stProd .audio) .audio =
      pauseProducer stProd .audio ∧
    enabledFor (pauseProducer stProd .audio) .audio = false ∧
    enabledFor (resumeProducer (pauseProducer stProd .audio) .audio) .audio =
      enabledFor stProd .audio ∧
    pauseProducer stOwn .audio = stOwn ∧
    resumeProducer stOwn .audio = stOwn ∧
    pauseProducer stProdPaused .audio = stProdPaused ∧
    resumeProducer stProd .audio = stProd :=
  pause_resume_producer stProd stOwn stProdPaused .audio
    { id := "ap", paused := false, closed := false }
    { id := "ap2", paused := true, closed := false } rfl rfl rfl rfl rfl

/-- C8: `peerClosed(p)` directly after `newPeer(p)` restores the previous
state exactly (so only that participant is removed and every other one is
untouched); `peerClosed(p)` when `p` is absent is a complete no-op; and in
both cases the consumer map is unchanged. -/
theorem peerClosed_removes_exactly (st : SvcState) (d : NewPeerData)
    (h : st.participantsSnap.countP (fun q => q.id == d.id) = 0) :
    handlePeerClosed (handleNewPeer st d) d.id = st ∧
    handlePeerClosed st d.id = st ∧
    (handlePeerClosed (handleNewPeer st d) d.id).consumers = st.consumers := by
  have hfilter : st.participantsSnap.filter (fun p => p.id != d.id) =
      st.participantsSnap := by
    rw [List.filter_eq_self]
    intro q hq
    have := List.countP_eq_zero.mp h q hq
    simpa using this
  have hany : st.participantsSnap.any (fun q => q.id == d.id) = false := by
    rw [List.any_eq_false]
    intro q hq
    have := List.countP_eq_zero.mp h q hq
    simpa using this
  have h2 : handlePeerClosed st d.id = st := by
    show { st with participantsSnap := removeParticipant st.participantsSnap d.id } = st
    rw [removeParticipant, hfilter]
  have h1 : handlePeerClosed (handleNewPeer st d) d.id = st := by
    show { st with participantsSnap :=
      removeParticipant (addParticipant st.participantsSnap _) d.id } = st
    rw [addParticipant, hany]
    simp only [Bool.false_eq_true, if_false, removeParticipant,
      List.filter_append, hfilter]
    simp
  exact ⟨h1, h2, by rw [h1]⟩

/-- Witness for C8 at the concrete fixture and peer `peerB`. -/
theorem peerClosed_removes_exactly_witness :
    handlePeerClosed (handleNewPeer stOwn dB) dB.id = stOwn ∧
    handlePeerClosed stOwn dB.id = stOwn ∧
    (handlePeerClosed (handleNewPeer stOwn dB) dB.id).consumers = stOwn.consumers :=
  peerClosed_removes_exactly stOwn dB (by decide)

/-- C9 counterexample: on the 10 s timeout (and likewise on an explicit
`failed` event) `waitForConnection` rejects with the descriptive message, but
the connection is NOT torn down: no handler performs a peer close. -/
theorem wait_no_teardown :
    (waitForConnection [WFCEvent.timeout]).outcome =
      .rejected "Connection timeout after 10 seconds" ∧
    WFCAct.closePeer ∉ (waitForConnection [WFCEvent.timeout]).trace ∧
    (waitForConnection [WFCEvent.failed "boom"]).outcome =
      .rejected "Connection failed: boom" ∧
    WFCAct.closePeer ∉ (waitForConnection [WFCEvent.failed "boom"]).trace := by
  refine ⟨by decide, by decide, by decide, by decide⟩

/-- C9 as amended: `waitForConnection` rejects with the descriptive timeout
message when the fixed 10000 ms timer fires first, rejects with the
descriptive failure message on an explicit `failed` event, resolves on
`open`, and the first of these outcomes wins (the promise settles exactly
once); the wait itself performs no teardown of the connection — a half-open
peer is closed only by `connectWithRetry`'s cleanup before a retry. -/
theorem wait_first_event_wins (e : WFCEvent) (es : List WFCEvent) (m : String) :
    waitForConnection (e :: es) = waitForConnection [e] ∧
    connectionTimeoutMs = 10000 ∧
    timeoutMessage = "Connection timeout after 10 seconds" ∧
    (waitForConnection [WFCEvent.timeout]).outcome = .rejected timeoutMessage ∧
    (waitForConnection [WFCEvent.failed m]).outcome = .rejected (failedMessage m) ∧
    failedMessage "" = "Connection failed: Unknown error" ∧
    (waitForConnection [WFCEvent.opened]).outcome = .resolvedOk ∧
    (waitForConnection (e :: es)).resolved = true ∧
    WFCAct.closePeer ∉ (waitForConnection (e :: es)).trace := by
  have hres : (wfcStep ⟨false, .pending, []⟩ e).resolved = true := by
    cases e <;> simp [wfcStep]
  have hfw : waitForConnection (e :: es) = waitForConnection [e] := by
    show List.foldl wfcStep _ _ = _
    rw [List.foldl_cons, wfc_resolved_foldl _ hres]
    rfl
  refine ⟨hfw, rfl, rfl, by simp [waitForConnection, wfcStep], ?_, rfl, ?_, ?_, ?_⟩
  · simp [waitForConnection, wfcStep]
  · simp [waitForConnection, wfcStep]
  · rw [hfw]; exact hres
  · rw [hfw]
    cases e <;> simp [waitForConnection, wfcStep]

/-- C10: when the local peer identifier is not established or the incoming
peer identifier is empty, `isOwnConsumer` returns false, so no notification
is classified as self-originated in that situation. -/
theorem own_guard_missing_ids_false (st : SvcState) (cpid : String)
    (h : st.currentPeerId = none ∨ cpid = "") :
    isOwnConsumer st cpid = false := by
  rcases h with h | h
  · simp [isOwnConsumer, h]
  · cases hc : st.currentPeerId with
    | none => simp [isOwnConsumer, hc]
    | some cur => simp [isOwnConsumer, hc, h]

/-- Witness for C10: a session whose peer id was cleared by `disconnect`. -/
theorem own_guard_missing_ids_false_witness :
    isOwnConsumer { stOwn with currentPeerId := none } "peerA" = false :=
  own_guard_missing_ids_false { stOwn with currentPeerId := none } "peerA"
    (Or.inl rfl)

end VideoCall
